import Mathlib

/-!
Verification of the chat session and message-history core of the EasyRecipe
frontend (`src/frontend/src/App.jsx`).

The React component state (`sessions`, `currentSessionId`, `messages`,
`isLoading`, `error`, `editingSessionId`, `editingName`) is embedded as the
structure `AppState`; `localStorage` under the fixed key
`easyrecipe_sessions` is embedded as an optional JSON blob held in the
`cache` field.  `JSON.stringify` / `JSON.parse` of the session list are
embedded as `encodeSessions` / `decodeSessions` over a JSON value type.
Each event handler of the component becomes a pure function from the state
(plus the outcome of its remote calls, passed as an explicit parameter) to
the new state, paired with the list of network requests it issues.

One behaviour of the source is modelled with care: handlers are closures
over the `sessions` binding of the render in which they were created, so
when `deleteSession` calls `loadSession` after `setSessions`, the inner
`loadSession` still searches the stale, pre-delete session list.
`loadSessionWith` takes that environment list explicitly.
-/

namespace EasyRecipe

/-- JSON values, as produced by `JSON.stringify` and consumed by
`JSON.parse`.  Only the fragment reachable from the session list is needed:
numbers in this data are the natural-number `Date.now()` message ids. -/
inductive Json where
  | null
  | num (n : Nat)
  | str (s : String)
  | arr (elems : List Json)
  | obj (fields : List (String × Json))

/-- Nutrition summary of a recipe (`recipe.nutrition.{calories, protein,
carbs}` as rendered by `MessageList.jsx`). -/
structure Nutrition where
  calories : String
  protein : String
  carbs : String
deriving DecidableEq, Repr

/-- A structured recipe, with the fields the frontend renders
(`name`, `ingredients`, `instructions`, `cookingTime`, `difficulty`,
optional `nutrition`). -/
structure Recipe where
  name : String
  ingredients : List String
  instructions : List String
  cookingTime : String
  difficulty : String
  nutrition : Option Nutrition
deriving DecidableEq, Repr

/-- A message identifier: `Date.now()` (a number) for optimistically created
messages, a string such as `chatId_user` for messages rebuilt from backend
history. -/
inductive MsgId where
  | num (n : Nat)
  | str (s : String)
deriving DecidableEq, Repr

/-- The `type` field of a message: `'user'` or `'ai'`. -/
inductive Role where
  | user
  | ai
deriving DecidableEq, Repr

/-- The `content` field of a message: the raw ingredient text for user
messages, a list of recipes for assistant messages. -/
inductive Content where
  | text (s : String)
  | recipes (rs : List Recipe)
deriving DecidableEq, Repr

/-- One chat message as built by `App.jsx`. -/
structure Message where
  id : MsgId
  type : Role
  content : Content
  timestamp : String
deriving DecidableEq, Repr

/-- One chat session as held in the `sessions` state and in the cache. -/
structure Session where
  id : String
  name : String
  createdAt : String
  messages : List Message
deriving DecidableEq, Repr

/-! ### The cache blob codec

`localStorage.setItem('easyrecipe_sessions', JSON.stringify(sessions))` is
embedded as storing `encodeSessions sessions`; the
`JSON.parse(localStorage.getItem(...))` on the load path is embedded as
`decodeSessions`. -/

def encodeNutrition (n : Nutrition) : Json :=
  .obj [("calories", .str n.calories), ("protein", .str n.protein),
        ("carbs", .str n.carbs)]

/-- An absent `nutrition` field serializes as `null`. -/
def encodeNutritionOpt : Option Nutrition → Json
  | some n => encodeNutrition n
  | none => .null

def encodeRecipe (r : Recipe) : Json :=
  .obj [("name", .str r.name),
        ("ingredients", .arr (r.ingredients.map Json.str)),
        ("instructions", .arr (r.instructions.map Json.str)),
        ("cookingTime", .str r.cookingTime),
        ("difficulty", .str r.difficulty),
        ("nutrition", encodeNutritionOpt r.nutrition)]

def encodeMsgId : MsgId → Json
  | .num n => .num n
  | .str s => .str s

def roleToString : Role → String
  | .user => "user"
  | .ai => "ai"

def encodeContent : Content → Json
  | .text s => .str s
  | .recipes rs => .arr (rs.map encodeRecipe)

def encodeMessage (m : Message) : Json :=
  .obj [("id", encodeMsgId m.id), ("type", .str (roleToString m.type)),
        ("content", encodeContent m.content), ("timestamp", .str m.timestamp)]

def encodeSession (s : Session) : Json :=
  .obj [("id", .str s.id), ("name", .str s.name),
        ("createdAt", .str s.createdAt),
        ("messages", .arr (s.messages.map encodeMessage))]

def encodeSessions (ss : List Session) : Json :=
  .arr (ss.map encodeSession)

/-- JavaScript property access on a parsed JSON object. -/
def getField : List (String × Json) → String → Option Json
  | [], _ => none
  | (k, v) :: fs, key => if k = key then some v else getField fs key

/-- Decode every element of a JSON array, failing if any element fails. -/
def decodeListWith (d : Json → Option α) : List Json → Option (List α)
  | [] => some []
  | j :: js =>
    match d j, decodeListWith d js with
    | some a, some as => some (a :: as)
    | _, _ => none

def decodeStr : Json → Option String
  | .str s => some s
  | _ => none

def decodeNutritionOpt : Json → Option (Option Nutrition)
  | .null => some none
  | .obj fs =>
    match getField fs "calories", getField fs "protein", getField fs "carbs" with
    | some (.str c), some (.str p), some (.str cb) => some (some ⟨c, p, cb⟩)
    | _, _, _ => none
  | _ => none

def decodeRecipe : Json → Option Recipe
  | .obj fs =>
    match getField fs "name", getField fs "ingredients",
          getField fs "instructions", getField fs "cookingTime",
          getField fs "difficulty", getField fs "nutrition" with
    | some (.str name), some (.arr ings), some (.arr insts),
      some (.str ct), some (.str diff), some nj =>
      match decodeListWith decodeStr ings, decodeListWith decodeStr insts,
            decodeNutritionOpt nj with
      | some ings2, some insts2, some nut => some ⟨name, ings2, insts2, ct, diff, nut⟩
      | _, _, _ => none
    | _, _, _, _, _, _ => none
  | _ => none

def decodeMsgId : Json → Option MsgId
  | .num n => some (.num n)
  | .str s => some (.str s)
  | _ => none

def parseRole : String → Option Role
  | "user" => some .user
  | "ai" => some .ai
  | _ => none

def decodeContent : Json → Option Content
  | .str s => some (.text s)
  | .arr js =>
    match decodeListWith decodeRecipe js with
    | some rs => some (.recipes rs)
    | none => none
  | _ => none

def decodeMessage : Json → Option Message
  | .obj fs =>
    match getField fs "id", getField fs "type", getField fs "content",
          getField fs "timestamp" with
    | some idj, some (.str tys), some cj, some (.str ts) =>
      match decodeMsgId idj, parseRole tys, decodeContent cj with
      | some mid, some role, some c => some ⟨mid, role, c, ts⟩
      | _, _, _ => none
    | _, _, _, _ => none
  | _ => none

def decodeSession : Json → Option Session
  | .obj fs =>
    match getField fs "id", getField fs "name", getField fs "createdAt",
          getField fs "messages" with
    | some (.str sid), some (.str nm), some (.str ca), some (.arr ms) =>
      match decodeListWith decodeMessage ms with
      | some ms2 => some ⟨sid, nm, ca, ms2⟩
      | none => none
    | _, _, _, _ => none
  | _ => none

def decodeSessions : Json → Option (List Session)
  | .arr js => decodeListWith decodeSession js
  | _ => none

/-! ### Codec round-trip lemmas -/

theorem decodeListWith_map (d : Json → Option α) (e : α → Json)
    (h : ∀ a, d (e a) = some a) :
    ∀ xs : List α, decodeListWith d (xs.map e) = some xs
  | [] => rfl
  | x :: xs => by
    simp only [List.map_cons, decodeListWith, h x, decodeListWith_map d e h xs]

theorem decodeStr_str (s : String) : decodeStr (Json.str s) = some s := rfl

theorem decodeNutritionOpt_encode (o : Option Nutrition) :
    decodeNutritionOpt (encodeNutritionOpt o) = some o := by
  cases o with
  | none => rfl
  | some n => cases n; rfl

theorem decodeRecipe_encode (r : Recipe) :
    decodeRecipe (encodeRecipe r) = some r := by
  cases r with
  | mk name ings insts ct diff nut =>
    simp [encodeRecipe, decodeRecipe, getField,
      decodeListWith_map decodeStr Json.str decodeStr_str,
      decodeNutritionOpt_encode]

theorem decodeMsgId_encode (i : MsgId) : decodeMsgId (encodeMsgId i) = some i := by
  cases i <;> rfl

theorem parseRole_toString (ro : Role) : parseRole (roleToString ro) = some ro := by
  cases ro <;> rfl

theorem decodeContent_encode (c : Content) :
    decodeContent (encodeContent c) = some c := by
  cases c with
  | text s => rfl
  | recipes rs =>
    simp only [encodeContent, decodeContent,
      decodeListWith_map decodeRecipe encodeRecipe decodeRecipe_encode]

theorem decodeMessage_encode (m : Message) :
    decodeMessage (encodeMessage m) = some m := by
  cases m with
  | mk mid role c ts =>
    simp [encodeMessage, decodeMessage, getField,
      decodeMsgId_encode, parseRole_toString, decodeContent_encode]

theorem decodeSession_encode (s : Session) :
    decodeSession (encodeSession s) = some s := by
  cases s with
  | mk sid nm ca ms =>
    simp [encodeSession, decodeSession, getField,
      decodeListWith_map decodeMessage encodeMessage decodeMessage_encode]

theorem decodeSessions_encode (ss : List Session) :
    decodeSessions (encodeSessions ss) = some ss := by
  simp only [encodeSessions, decodeSessions,
    decodeListWith_map decodeSession encodeSession decodeSession_encode]

/-! ### Component state and network requests -/

/-- The React component state of `App`, together with the `localStorage`
blob under the fixed key `easyrecipe_sessions` (the `cache` field; `none`
when the key is absent). -/
structure AppState where
  sessions : List Session
  currentSessionId : Option String
  messages : List Message
  isLoading : Bool
  error : Option String
  editingSessionId : Option String
  editingName : String
  cache : Option Json

/-- The initial component state (`useState` initialisers), with an empty
`localStorage`. -/
def initialState : AppState :=
  { sessions := [], currentSessionId := none, messages := [],
    isLoading := false, error := none, editingSessionId := none,
    editingName := "", cache := none }

/-- A network request issued by a handler (the `axios` calls of
`App.jsx`).  `putTitle` carries the session id as it appears in the URL
template, which is the raw `editingSessionId` value. -/
inductive Req where
  | getSessions
  | getHistory (sessionId : String)
  | postSend (ingredients : String) (sessionId : String)
  | putTitle (sessionId : Option String) (title : String)
  | deleteReq (sessionId : String)
deriving DecidableEq, Repr

/-- Persist a session list to the Local Cache, as
`localStorage.setItem('easyrecipe_sessions', JSON.stringify(sessions))`
does. -/
def saveSessionsToCache (st : AppState) (ss : List Session) : AppState :=
  { st with cache := some (encodeSessions ss) }

/-- Read the session list back from the Local Cache, as
`JSON.parse(localStorage.getItem('easyrecipe_sessions'))` does on the
fallback load path; `none` when the key is absent or the blob does not
parse to a session list. -/
def loadCachedSessions (st : AppState) : Option (List Session) :=
  st.cache.bind decodeSessions

/-! ### Session Manager operations -/

/-- `createNewSession` (App.jsx 36-53).  The generated id
(`session_<Date.now()>_<random>`) and the creation timestamp are passed in
as parameters.  Note the source computes the cached list as
`[newSession, ...sessions]` from the render-time `sessions` binding, which
sequentially equals the list passed to `setSessions`. -/
def createNewSession (st : AppState) (newSessionId : String) (ts : String) :
    AppState :=
  let newSession : Session :=
    { id := newSessionId,
      name := "Recipe Analysis " ++ toString (st.sessions.length + 1),
      createdAt := ts,
      messages := [] }
  let updatedSessions := newSession :: st.sessions
  { st with
    sessions := updatedSessions,
    currentSessionId := some newSessionId,
    messages := [],
    error := none,
    cache := some (encodeSessions updatedSessions) }

/-- One record of `response.data.history` from
`GET /api/chat/history/{sessionId}`. -/
structure ChatRecord where
  id : String
  ingredients : String
  recipes : List Recipe
  timestamp : String
deriving DecidableEq, Repr

/-- Outcome of the history fetch inside `loadSession`: `ok history` for a
successful response (`[]` also covers an absent `history` field, which the
source treats identically), `err` for a rejected request. -/
inductive HistoryOutcome where
  | ok (history : List ChatRecord)
  | err
deriving DecidableEq, Repr

/-- The two frontend messages built from one backend history record
(App.jsx 68-83). -/
def chatToMessages (c : ChatRecord) : List Message :=
  [ { id := .str (c.id ++ "_user"), type := .user,
      content := .text c.ingredients, timestamp := c.timestamp },
    { id := .str (c.id ++ "_ai"), type := .ai,
      content := .recipes c.recipes, timestamp := c.timestamp } ]

/-- `loadSession` (App.jsx 56-104), with the `sessions` binding the closure
captured passed explicitly as `envSessions`: the handler searches and maps
over that captured list, while state updates land on `st`.  At top level
the two coincide (`loadSession` below), but when `deleteSession` invokes
`loadSession` after `setSessions`, `envSessions` is the stale pre-delete
list. -/
def loadSessionWith (envSessions : List Session) (st : AppState)
    (sessionId : String) (outcome : HistoryOutcome) : AppState × List Req :=
  match envSessions.find? (fun s => s.id == sessionId) with
  | none => (st, [])
  | some session =>
    let st1 := { st with currentSessionId := some sessionId, error := none }
    match outcome with
    | .ok history =>
      if history.length > 0 then
        let backendMessages := history.flatMap chatToMessages
        let updatedSessions := envSessions.map (fun s =>
          if s.id = sessionId then { s with messages := backendMessages } else s)
        ({ st1 with messages := backendMessages,
                    sessions := updatedSessions,
                    cache := some (encodeSessions updatedSessions) },
         [.getHistory sessionId])
      else
        ({ st1 with messages := session.messages }, [.getHistory sessionId])
    | .err =>
        ({ st1 with messages := session.messages }, [.getHistory sessionId])

/-- `loadSession` as invoked directly from the UI: the captured `sessions`
binding is the current state's list. -/
def loadSession (st : AppState) (sessionId : String)
    (outcome : HistoryOutcome) : AppState × List Req :=
  loadSessionWith st.sessions st sessionId outcome

/-- JavaScript `String.prototype.trim`, embedded over the character list:
leading and trailing whitespace removed.  (Defined by list operations so it
evaluates inside the kernel; `x.trim()` being falsy in the source's guards
is `jsTrim x = ""` here.) -/
def jsTrim (s : String) : String :=
  ⟨(((s.data.dropWhile Char.isWhitespace).reverse).dropWhile
      Char.isWhitespace).reverse⟩

/-- `startEditingSession` (App.jsx 107-110). -/
def startEditingSession (st : AppState) (sessionId : String)
    (currentName : String) : AppState :=
  { st with editingSessionId := some sessionId, editingName := currentName }

/-- Outcome of a fire-and-forget remote call whose response body the source
ignores. -/
inductive RemoteOutcome where
  | ok
  | err
deriving DecidableEq, Repr

/-- `saveSessionName` (App.jsx 113-146).  The guard is
`if (editingName.trim())`; inside it the `try` and `catch` branches apply
the identical local update, so the remote outcome decides only which branch
ran.  The editing state is cleared in every case after the guard. -/
def saveSessionName (st : AppState) (outcome : RemoteOutcome) :
    AppState × List Req :=
  if jsTrim st.editingName = "" then
    ({ st with editingSessionId := none, editingName := "" }, [])
  else
    match outcome with
    | .ok =>
      let updatedSessions := st.sessions.map (fun session =>
        if some session.id = st.editingSessionId
        then { session with name := jsTrim st.editingName } else session)
      ({ st with sessions := updatedSessions,
                 cache := some (encodeSessions updatedSessions),
                 editingSessionId := none, editingName := "" },
       [.putTitle st.editingSessionId (jsTrim st.editingName)])
    | .err =>
      let updatedSessions := st.sessions.map (fun session =>
        if some session.id = st.editingSessionId
        then { session with name := jsTrim st.editingName } else session)
      ({ st with sessions := updatedSessions,
                 cache := some (encodeSessions updatedSessions),
                 editingSessionId := none, editingName := "" },
       [.putTitle st.editingSessionId (jsTrim st.editingName)])

/-- Outcome of the remote part of `deleteSession`: `ok refreshed` when both
the `DELETE` and the follow-up `GET /api/chat/sessions` succeed
(`refreshed` is `response.data.sessions || []`), `err` when either call
rejects (a single `catch` covers both). -/
inductive DeleteOutcome where
  | ok (refreshed : List Session)
  | err

/-- `deleteSession` (App.jsx 155-193).  In both branches the nested
`loadSession(updatedSessions[0].id)` call runs the closure captured over
the pre-delete `sessions` list, so it is `loadSessionWith st.sessions`
applied to the already-updated state.  In the remote-success branch the
source does not rewrite the Local Cache. -/
def deleteSession (st : AppState) (sessionId : String)
    (outcome : DeleteOutcome) (nested : HistoryOutcome) :
    AppState × List Req :=
  match outcome with
  | .ok refreshed =>
    let st1 := { st with sessions := refreshed }
    if st.currentSessionId = some sessionId then
      match refreshed with
      | head :: _ =>
        let r := loadSessionWith st.sessions st1 head.id nested
        (r.1, [.deleteReq sessionId, .getSessions] ++ r.2)
      | [] =>
        ({ st1 with currentSessionId := none, messages := [] },
         [.deleteReq sessionId, .getSessions])
    else (st1, [.deleteReq sessionId, .getSessions])
  | .err =>
    let updatedSessions := st.sessions.filter (fun s => !(s.id == sessionId))
    let st1 := { st with
                 sessions := updatedSessions,
                 cache := some (encodeSessions updatedSessions) }
    if st.currentSessionId = some sessionId then
      match updatedSessions with
      | head :: _ =>
        let r := loadSessionWith st.sessions st1 head.id nested
        (r.1, [.deleteReq sessionId] ++ r.2)
      | [] =>
        ({ st1 with currentSessionId := none, messages := [] },
         [.deleteReq sessionId])
    else (st1, [.deleteReq sessionId])

/-! ### Message Exchange Controller -/

/-- Outcome of `POST /api/chat/send`: on success the `recipes` field of the
response body (absent modelled as `none`; the source appends
`response.data.recipes || []`, and an array — even empty — is truthy in
JavaScript, so only an absent field falls back); on failure the optional
`error.response?.data?.detail` string. -/
inductive GenOutcome where
  | ok (recipes : Option (List Recipe))
  | err (detail : Option String)

/-- The generic failure message of the send path. -/
def genericSendError : String :=
  "Failed to get recipe suggestions. Please try again."

/-- `error.response?.data?.detail || 'Failed to get recipe suggestions...'`:
an absent detail, and also an empty-string detail (falsy in JavaScript),
fall back to the generic message. -/
def errorText (detail : Option String) : String :=
  match detail with
  | some s => if s = "" then genericSendError else s
  | none => genericSendError

/-- The optimistic user message built by `sendMessage` (App.jsx 204-209):
id `Date.now()`, the raw ingredient text, the current timestamp. -/
def mkUserMessage (ingredients : String) (now : Nat) (ts : String) : Message :=
  { id := .num now, type := .user, content := .text ingredients,
    timestamp := ts }

/-- The assistant message built by `sendMessage` on success
(App.jsx 221-226): id `Date.now() + 1`, the returned recipes or an empty
list when the field is absent, the current timestamp. -/
def mkAiMessage (recipesOpt : Option (List Recipe)) (now : Nat)
    (ts : String) : Message :=
  { id := .num (now + 1), type := .ai, content := .recipes (recipesOpt.getD []),
    timestamp := ts }

/-- The state of `sendMessage` after the optimistic update and before any
network response arrives (App.jsx 211-213): the user message appended, the
loading flag set, the previous error cleared. -/
def sendMessagePre (st : AppState) (ingredients : String) (now : Nat)
    (ts : String) : AppState :=
  { st with messages := st.messages ++ [mkUserMessage ingredients now ts],
            isLoading := true, error := none }

/-- `sendMessage` (App.jsx 196-246).  `newSessionId`/`tsNew` feed the
`createNewSession` delegation branch; `now1`/`ts1` are the `Date.now()` and
timestamp at the optimistic update, `now2`/`ts2` those at response time.
On success the cached message list is `[...messages, userMessage,
aiMessage]` over the render-time `messages` binding, which sequentially
equals the optimistic list plus the assistant message.  The `finally`
block clears the loading flag on every path. -/
def sendMessage (st : AppState) (ingredients : String)
    (newSessionId : String) (tsNew : String) (now1 : Nat) (ts1 : String)
    (outcome : GenOutcome) (now2 : Nat) (ts2 : String) :
    AppState × List Req :=
  if jsTrim ingredients = "" then (st, [])
  else
    match st.currentSessionId with
    | none => (createNewSession st newSessionId tsNew, [])
    | some sid =>
      let userMessage := mkUserMessage ingredients now1 ts1
      let st1 := sendMessagePre st ingredients now1 ts1
      match outcome with
      | .ok recipesOpt =>
        let aiMessage := mkAiMessage recipesOpt now2 ts2
        let updatedMessages := st.messages ++ [userMessage, aiMessage]
        let updatedSessions := st1.sessions.map (fun session =>
          if session.id = sid
          then { session with messages := updatedMessages } else session)
        ({ st1 with messages := st1.messages ++ [aiMessage],
                    sessions := updatedSessions,
                    cache := some (encodeSessions updatedSessions),
                    isLoading := false },
         [.postSend ingredients sid])
      | .err detail =>
        ({ st1 with error := some (errorText detail), isLoading := false },
         [.postSend ingredients sid])

/-! ### Helper lemmas about `loadSessionWith` -/

/-- When the searched list has no session with the requested id,
`loadSession` does nothing at all. -/
theorem loadSessionWith_not_found (envSessions : List Session) (st : AppState)
    (sessionId : String) (outcome : HistoryOutcome)
    (h : envSessions.find? (fun s => s.id == sessionId) = none) :
    loadSessionWith envSessions st sessionId outcome = (st, []) := by
  unfold loadSessionWith
  rw [h]

/-- When the searched list has a session with the requested id, that id
becomes active whatever the history fetch returns. -/
theorem loadSessionWith_found_active (envSessions : List Session)
    (st : AppState) (sessionId : String) (outcome : HistoryOutcome)
    (h : (envSessions.find? (fun s => s.id == sessionId)).isSome) :
    (loadSessionWith envSessions st sessionId outcome).1.currentSessionId
      = some sessionId := by
  obtain ⟨session, hs⟩ := Option.isSome_iff_exists.mp h
  unfold loadSessionWith
  rw [hs]
  cases outcome with
  | ok history =>
    by_cases hl : history.length > 0 <;> simp [hl]
  | err => rfl

/-! ### Concrete values for witnesses and counterexamples -/

/-- The Pancakes recipe of the spec scenario. -/
def pancakesRecipe : Recipe :=
  { name := "Pancakes", ingredients := ["eggs", "flour", "milk"],
    instructions := ["mix", "fry"], cookingTime := "20 min",
    difficulty := "Easy", nutrition := none }

def sessA : Session := { id := "a", name := "A", createdAt := "t", messages := [] }

def sessB : Session := { id := "b", name := "B", createdAt := "t", messages := [] }

/-- A state with the single session `a` active. -/
def cexStateC4 : AppState :=
  { initialState with sessions := [sessA], currentSessionId := some "a" }

/-- A state with two sessions `a`, `b`, with `a` active. -/
def witStateC4 : AppState :=
  { initialState with sessions := [sessA, sessB], currentSessionId := some "a" }

/-- A session with one cached message, for the `loadSession` fallback
witness. -/
def sessM : Session :=
  { id := "m", name := "M", createdAt := "t",
    messages := [mkUserMessage "x" 1 "t1"] }

/-- A state holding `sessM`, for the `loadSession` fallback witness. -/
def stWithM : AppState := { initialState with sessions := [sessM] }

/-! ### The claims -/

/-- Claim C1: for every ingredient string that is non-empty after trimming,
when a session is active, `sendMessage` appends exactly one user message —
carrying the ingredient text, the locally generated `Date.now()` identifier
and the current timestamp — to the active message sequence before any
network response arrives, sets the loading flag, and clears any previous
error; every settled state of `sendMessage` extends that optimistic message
list. -/
theorem sendMessage_optimistic_user_append (st : AppState)
    (ingredients : String) (sid : String) (now1 : Nat) (ts1 : String)
    (h1 : jsTrim ingredients ≠ "")
    (h2 : st.currentSessionId = some sid) :
    (sendMessagePre st ingredients now1 ts1).messages
        = st.messages ++ [mkUserMessage ingredients now1 ts1]
    ∧ (mkUserMessage ingredients now1 ts1).type = .user
    ∧ (mkUserMessage ingredients now1 ts1).content = .text ingredients
    ∧ (mkUserMessage ingredients now1 ts1).id = .num now1
    ∧ (mkUserMessage ingredients now1 ts1).timestamp = ts1
    ∧ (sendMessagePre st ingredients now1 ts1).isLoading = true
    ∧ (sendMessagePre st ingredients now1 ts1).error = none
    ∧ ∀ (newSessionId tsNew : String) (outcome : GenOutcome) (now2 : Nat)
        (ts2 : String), ∃ tail,
        (sendMessage st ingredients newSessionId tsNew now1 ts1 outcome now2
            ts2).1.messages
          = (sendMessagePre st ingredients now1 ts1).messages ++ tail := by
  refine ⟨rfl, rfl, rfl, rfl, rfl, rfl, rfl, ?_⟩
  intro newSessionId tsNew outcome now2 ts2
  cases outcome with
  | ok recipesOpt =>
    exact ⟨[mkAiMessage recipesOpt now2 ts2],
      by simp [sendMessage, h1, h2, sendMessagePre]⟩
  | err detail =>
    exact ⟨[], by simp [sendMessage, h1, h2, sendMessagePre]⟩

/-- Witness for claim C1 at a concrete state. -/
theorem sendMessage_optimistic_user_append_witness :
    jsTrim "eggs" ≠ ""
    ∧ (createNewSession initialState "s1" "t0").currentSessionId = some "s1"
    ∧ (sendMessagePre (createNewSession initialState "s1" "t0") "eggs" 5
        "t1").messages
        = (createNewSession initialState "s1" "t0").messages
            ++ [mkUserMessage "eggs" 5 "t1"]
    ∧ (sendMessagePre (createNewSession initialState "s1" "t0") "eggs" 5
        "t1").isLoading = true :=
  ⟨by decide, rfl,
   (sendMessage_optimistic_user_append (createNewSession initialState "s1" "t0")
      "eggs" "s1" 5 "t1" (by decide) rfl).1,
   (sendMessage_optimistic_user_append (createNewSession initialState "s1" "t0")
      "eggs" "s1" 5 "t1" (by decide) rfl).2.2.2.2.2.1⟩

/-- Claim C2: if the generation call fails, `sendMessage` appends no
assistant message (the only appended message is the user one) and sets a
non-empty error — the failure detail if present and non-empty, otherwise
the generic failure message; and for every outcome the loading flag is
false after settlement. -/
theorem sendMessage_failure_semantics (st : AppState) (ingredients : String)
    (sid newSessionId tsNew : String) (now1 : Nat) (ts1 : String)
    (detail : Option String) (now2 : Nat) (ts2 : String)
    (h1 : jsTrim ingredients ≠ "")
    (h2 : st.currentSessionId = some sid) :
    (sendMessage st ingredients newSessionId tsNew now1 ts1 (.err detail)
        now2 ts2).1.messages
        = st.messages ++ [mkUserMessage ingredients now1 ts1]
    ∧ (mkUserMessage ingredients now1 ts1).type = .user
    ∧ (sendMessage st ingredients newSessionId tsNew now1 ts1 (.err detail)
        now2 ts2).1.error = some (errorText detail)
    ∧ errorText detail ≠ ""
    ∧ ∀ outcome : GenOutcome,
        (sendMessage st ingredients newSessionId tsNew now1 ts1 outcome now2
            ts2).1.isLoading = false := by
  refine ⟨?_, rfl, ?_, ?_, ?_⟩
  · simp [sendMessage, h1, h2, sendMessagePre]
  · simp [sendMessage, h1, h2]
  · cases detail with
    | none =>
      show genericSendError ≠ ""
      decide
    | some s =>
      by_cases hs : s = ""
      · subst hs
        show (if ("" : String) = "" then genericSendError else "") ≠ ""
        simp only [if_pos rfl]
        decide
      · simp [errorText, hs]
  · intro outcome
    cases outcome <;> simp [sendMessage, h1, h2, sendMessagePre]

/-- Witness for claim C2 at a concrete state. -/
theorem sendMessage_failure_semantics_witness :
    jsTrim "eggs" ≠ ""
    ∧ (createNewSession initialState "s1" "t0").currentSessionId = some "s1"
    ∧ (sendMessage (createNewSession initialState "s1" "t0") "eggs" "x" "tx"
        5 "t1" (.err none) 6 "t2").1.messages
        = (createNewSession initialState "s1" "t0").messages
            ++ [mkUserMessage "eggs" 5 "t1"]
    ∧ (sendMessage (createNewSession initialState "s1" "t0") "eggs" "x" "tx"
        5 "t1" (.err none) 6 "t2").1.error = some genericSendError
    ∧ (sendMessage (createNewSession initialState "s1" "t0") "eggs" "x" "tx"
        5 "t1" (.err none) 6 "t2").1.isLoading = false :=
  ⟨by decide, rfl,
   (sendMessage_failure_semantics (createNewSession initialState "s1" "t0")
      "eggs" "s1" "x" "tx" 5 "t1" none 6 "t2" (by decide) rfl).1,
   (sendMessage_failure_semantics (createNewSession initialState "s1" "t0")
      "eggs" "s1" "x" "tx" 5 "t1" none 6 "t2" (by decide) rfl).2.2.1,
   (sendMessage_failure_semantics (createNewSession initialState "s1" "t0")
      "eggs" "s1" "x" "tx" 5 "t1" none 6 "t2" (by decide) rfl).2.2.2.2
      (.err none)⟩

/-- Claim C3: on generation success `sendMessage` appends exactly one
assistant message whose content is the returned recipe list (an empty list
when the response carries none), and persists the updated message sequence
into the Local Cache entry of the active session. -/
theorem sendMessage_success_appends (st : AppState) (ingredients : String)
    (sid newSessionId tsNew : String) (now1 : Nat) (ts1 : String)
    (recipesOpt : Option (List Recipe)) (now2 : Nat) (ts2 : String)
    (h1 : jsTrim ingredients ≠ "")
    (h2 : st.currentSessionId = some sid) :
    (sendMessage st ingredients newSessionId tsNew now1 ts1 (.ok recipesOpt)
        now2 ts2).1.messages
        = st.messages ++ [mkUserMessage ingredients now1 ts1,
                          mkAiMessage recipesOpt now2 ts2]
    ∧ (mkAiMessage recipesOpt now2 ts2).type = .ai
    ∧ (mkAiMessage recipesOpt now2 ts2).content
        = .recipes (recipesOpt.getD [])
    ∧ (sendMessage st ingredients newSessionId tsNew now1 ts1 (.ok recipesOpt)
        now2 ts2).1.sessions
        = st.sessions.map (fun session =>
            if session.id = sid
            then { session with
                     messages := st.messages
                       ++ [mkUserMessage ingredients now1 ts1,
                           mkAiMessage recipesOpt now2 ts2] }
            else session)
    ∧ (sendMessage st ingredients newSessionId tsNew now1 ts1 (.ok recipesOpt)
        now2 ts2).1.cache
        = some (encodeSessions (st.sessions.map (fun session =>
            if session.id = sid
            then { session with
                     messages := st.messages
                       ++ [mkUserMessage ingredients now1 ts1,
                           mkAiMessage recipesOpt now2 ts2] }
            else session))) := by
  refine ⟨?_, rfl, rfl, ?_, ?_⟩ <;>
    simp [sendMessage, h1, h2, sendMessagePre]

/-- Witness for claim C3: the spec scenario — create a session, send
"eggs, flour, milk" with a mock generation returning one Pancakes recipe;
the message sequence has two entries and the second entry is the assistant
message whose content is the one-element Pancakes list. -/
theorem sendMessage_success_appends_witness :
    jsTrim "eggs, flour, milk" ≠ ""
    ∧ (createNewSession initialState "s1" "t0").currentSessionId = some "s1"
    ∧ (sendMessage (createNewSession initialState "s1" "t0")
        "eggs, flour, milk" "x" "tx" 5 "t1" (.ok (some [pancakesRecipe])) 6
        "t2").1.messages
        = (createNewSession initialState "s1" "t0").messages
            ++ [mkUserMessage "eggs, flour, milk" 5 "t1",
                mkAiMessage (some [pancakesRecipe]) 6 "t2"]
    ∧ (sendMessage (createNewSession initialState "s1" "t0")
        "eggs, flour, milk" "x" "tx" 5 "t1" (.ok (some [pancakesRecipe])) 6
        "t2").1.messages.length = 2
    ∧ (sendMessage (createNewSession initialState "s1" "t0")
        "eggs, flour, milk" "x" "tx" 5 "t1" (.ok (some [pancakesRecipe])) 6
        "t2").1.messages[1]?
        = some (mkAiMessage (some [pancakesRecipe]) 6 "t2")
    ∧ (mkAiMessage (some [pancakesRecipe]) 6 "t2").content
        = .recipes [pancakesRecipe] :=
  ⟨by decide, rfl,
   (sendMessage_success_appends (createNewSession initialState "s1" "t0")
      "eggs, flour, milk" "s1" "x" "tx" 5 "t1" (some [pancakesRecipe]) 6 "t2"
      (by decide) rfl).1,
   by decide, by decide, by decide⟩

/-- Claim C4 counterexample: with `a` the single, active session, a fully
successful remote delete whose refreshed list is the nonempty `[sessB]`
(the remote store no longer contains `a`, and another client's session `b`
heads the list) leaves the deleted id `a` active: the nested `loadSession`
closure searches the stale pre-delete list, does not find `b`, and so never
re-points the active id.  This falsifies the claim that after a successful
remote delete the active id never points at the deleted session and the
new head of the list becomes active. -/
theorem deleteSession_stale_refresh_cex :
    cexStateC4.currentSessionId = some "a"
    ∧ (deleteSession cexStateC4 "a" (.ok [sessB]) .err).1.currentSessionId
        = some "a"
    ∧ (deleteSession cexStateC4 "a" (.ok [sessB]) .err).1.currentSessionId
        ≠ some sessB.id := by
  refine ⟨rfl, rfl, by decide⟩

/-- Claim C4 (amended): after `deleteSession`, the active id never points
at the deleted session, provided in the remote-success path that the head
of the refreshed list was already present in the pre-delete local session
list (the nested `loadSession` searches that stale list) and that the
refreshed list no longer carries the deleted id.  Then: if the deleted
session was active and the post-delete list is nonempty, its head becomes
the active session; if it was the last one, the active id and the message
sequence are cleared; and a delete of a non-active session never moves the
active id. -/
theorem deleteSession_active_id_invariant (st : AppState) (sessionId : String)
    (nested : HistoryOutcome) :
    (∀ head rest, st.currentSessionId = some sessionId →
        (st.sessions.find? (fun s => s.id == head.id)).isSome →
        sessionId ∉ (head :: rest).map Session.id →
        (deleteSession st sessionId (.ok (head :: rest))
            nested).1.currentSessionId = some head.id
        ∧ head.id ≠ sessionId)
    ∧ (st.currentSessionId = some sessionId →
        (deleteSession st sessionId (.ok []) nested).1.currentSessionId = none
        ∧ (deleteSession st sessionId (.ok []) nested).1.messages = [])
    ∧ (∀ head rest, st.currentSessionId = some sessionId →
        st.sessions.filter (fun s => !(s.id == sessionId)) = head :: rest →
        (deleteSession st sessionId .err nested).1.currentSessionId
            = some head.id
        ∧ head.id ≠ sessionId)
    ∧ (st.currentSessionId = some sessionId →
        st.sessions.filter (fun s => !(s.id == sessionId)) = [] →
        (deleteSession st sessionId .err nested).1.currentSessionId = none
        ∧ (deleteSession st sessionId .err nested).1.messages = [])
    ∧ (∀ outcome : DeleteOutcome, st.currentSessionId ≠ some sessionId →
        (deleteSession st sessionId outcome nested).1.currentSessionId
          = st.currentSessionId) := by
  refine ⟨?_, ?_, ?_, ?_, ?_⟩
  · intro head rest hact hfind hnotin
    have hid : head.id ≠ sessionId := by
      intro he
      exact hnotin (by simp [he])
    refine ⟨?_, hid⟩
    simp only [deleteSession, hact, if_pos]
    exact loadSessionWith_found_active _ _ _ _ hfind
  · intro hact
    constructor <;> simp [deleteSession, hact]
  · intro head rest hact hfilt
    have hmem : head ∈ st.sessions.filter (fun s => !(s.id == sessionId)) := by
      rw [hfilt]; exact List.mem_cons_self head rest
    obtain ⟨hmem2, hp⟩ := List.mem_filter.mp hmem
    have hid : head.id ≠ sessionId := by simpa using hp
    have hfind : (st.sessions.find? (fun s => s.id == head.id)).isSome :=
      List.find?_isSome.mpr ⟨head, hmem2, by simp⟩
    refine ⟨?_, hid⟩
    simp only [deleteSession, hact, if_pos, hfilt]
    exact loadSessionWith_found_active _ _ _ _ hfind
  · intro hact hfilt
    constructor <;> simp [deleteSession, hact, hfilt]
  · intro outcome hne
    cases outcome with
    | ok refreshed => simp [deleteSession, hne]
    | err => simp [deleteSession, hne]

/-- Witness for the amended claim C4, on a state with sessions `a`, `b`
and `a` active: both the remote-success path (refresh `[sessB]`) and the
local-fallback path activate `b`. -/
theorem deleteSession_active_id_invariant_witness :
    witStateC4.currentSessionId = some "a"
    ∧ (witStateC4.sessions.find? (fun s => s.id == sessB.id)).isSome
    ∧ "a" ∉ ([sessB].map Session.id)
    ∧ (deleteSession witStateC4 "a" (.ok [sessB]) .err).1.currentSessionId
        = some sessB.id
    ∧ witStateC4.sessions.filter (fun s => !(s.id == "a")) = [sessB]
    ∧ (deleteSession witStateC4 "a" .err .err).1.currentSessionId
        = some sessB.id :=
  ⟨rfl, by decide, by decide,
   ((deleteSession_active_id_invariant witStateC4 "a" .err).1 sessB [] rfl
      (by decide) (by decide)).1,
   by decide,
   ((deleteSession_active_id_invariant witStateC4 "a" .err).2.2.1 sessB [] rfl
      (by decide)).1⟩

/-- Claim C5: renaming a session to an empty or whitespace-only name
leaves the session list (and so every stored name) and the cache unchanged
and issues no network call; renaming to a name that is non-empty after
trimming applies the trimmed name to the local list and the Local Cache
regardless of the remote outcome. -/
theorem renameSession_trim_guard (st : AppState) (id : String)
    (newName : String) (outcome : RemoteOutcome) :
    (jsTrim newName = "" →
      saveSessionName (startEditingSession st id newName) outcome
        = ({ st with editingSessionId := none, editingName := "" }, []))
    ∧ (jsTrim newName ≠ "" →
      (saveSessionName (startEditingSession st id newName) outcome).1.sessions
          = st.sessions.map (fun session =>
              if session.id = id
              then { session with name := jsTrim newName } else session)
      ∧ (saveSessionName (startEditingSession st id newName) outcome).1.cache
          = some (encodeSessions (st.sessions.map (fun session =>
              if session.id = id
              then { session with name := jsTrim newName } else session)))
      ∧ (saveSessionName (startEditingSession st id newName) outcome).2
          = [.putTitle (some id) (jsTrim newName)]) := by
  constructor
  · intro h
    cases outcome <;> simp [saveSessionName, startEditingSession, h]
  · intro h
    cases outcome <;>
      refine ⟨?_, ?_, ?_⟩ <;>
        simp [saveSessionName, startEditingSession, h]

/-- Witness for claim C5: a whitespace-only rename leaves the two-session
list unchanged with no request, a padded rename applies the trimmed name
locally even when the remote update fails. -/
theorem renameSession_trim_guard_witness :
    jsTrim "   " = ""
    ∧ saveSessionName (startEditingSession witStateC4 "a" "   ") .err
        = ({ witStateC4 with editingSessionId := none, editingName := "" }, [])
    ∧ jsTrim " New Name " ≠ ""
    ∧ (saveSessionName (startEditingSession witStateC4 "a" " New Name ")
          .err).1.sessions
        = [{ sessA with name := "New Name" }, sessB] :=
  ⟨by decide,
   (renameSession_trim_guard witStateC4 "a" "   " .err).1 (by decide),
   by decide,
   by
    have h := ((renameSession_trim_guard witStateC4 "a" " New Name " .err).2
      (by decide)).1
    rw [h]
    decide⟩

/-- Claim C6: for every session id present in the local session list,
`loadSession` sets that session active for every outcome of the history
fetch; and when the fetch fails or returns an empty history, the in-memory
message sequence becomes exactly the locally stored message sequence of
that session, with the session list and the cache blob unchanged. -/
theorem loadSession_fallback_to_cache (st : AppState) (sessionId : String)
    (session : Session)
    (h : st.sessions.find? (fun s => s.id == sessionId) = some session) :
    (∀ outcome : HistoryOutcome,
        (loadSession st sessionId outcome).1.currentSessionId = some sessionId)
    ∧ (loadSession st sessionId .err).1.messages = session.messages
    ∧ (loadSession st sessionId .err).1.sessions = st.sessions
    ∧ (loadSession st sessionId .err).1.cache = st.cache
    ∧ ∀ history : List ChatRecord, history = [] →
        (loadSession st sessionId (.ok history)).1.messages = session.messages
        ∧ (loadSession st sessionId (.ok history)).1.sessions = st.sessions
        ∧ (loadSession st sessionId (.ok history)).1.cache = st.cache := by
  refine ⟨?_, ?_, ?_, ?_, ?_⟩
  · intro outcome
    exact loadSessionWith_found_active _ _ _ _ (by rw [h]; rfl)
  · simp [loadSession, loadSessionWith, h]
  · simp [loadSession, loadSessionWith, h]
  · simp [loadSession, loadSessionWith, h]
  · intro history hh
    subst hh
    refine ⟨?_, ?_, ?_⟩ <;> simp [loadSession, loadSessionWith, h]

/-- Witness for claim C6 on a state holding one session `m` with one
cached message: a failed fetch and an empty fetch both leave exactly that
message sequence in memory. -/
theorem loadSession_fallback_to_cache_witness :
    stWithM.sessions.find? (fun s => s.id == "m") = some sessM
    ∧ (loadSession stWithM "m" .err).1.currentSessionId = some "m"
    ∧ (loadSession stWithM "m" .err).1.messages = sessM.messages
    ∧ (loadSession stWithM "m" (.ok [])).1.messages = sessM.messages
    ∧ sessM.messages = [mkUserMessage "x" 1 "t1"] :=
  ⟨rfl,
   (loadSession_fallback_to_cache stWithM "m" sessM rfl).1 .err,
   (loadSession_fallback_to_cache stWithM "m" sessM rfl).2.1,
   ((loadSession_fallback_to_cache stWithM "m" sessM rfl).2.2.2.2 [] rfl).1,
   by decide⟩

/-- Claim C7: `sendMessage` with an ingredient string that is empty after
trimming is a complete no-op (state unchanged, no request issued);
`sendMessage` with non-empty ingredients but no active session delegates
to `createNewSession` and returns without issuing a generation request. -/
theorem sendMessage_boundary_rejects (st : AppState) (ingredients : String)
    (newSessionId tsNew : String) (now1 : Nat) (ts1 : String)
    (outcome : GenOutcome) (now2 : Nat) (ts2 : String) :
    (jsTrim ingredients = "" →
      sendMessage st ingredients newSessionId tsNew now1 ts1 outcome now2 ts2
        = (st, []))
    ∧ (jsTrim ingredients ≠ "" → st.currentSessionId = none →
      sendMessage st ingredients newSessionId tsNew now1 ts1 outcome now2 ts2
        = (createNewSession st newSessionId tsNew, [])) := by
  constructor
  · intro h
    simp [sendMessage, h]
  · intro h1 h2
    simp [sendMessage, h1, h2]

/-- Witness for claim C7 at the initial state (no active session): a
whitespace-only send is a no-op and a non-empty send only creates a
session. -/
theorem sendMessage_boundary_rejects_witness :
    jsTrim " " = ""
    ∧ sendMessage initialState " " "n1" "t0" 5 "t1" (.err none) 6 "t2"
        = (initialState, [])
    ∧ jsTrim "eggs" ≠ ""
    ∧ initialState.currentSessionId = none
    ∧ sendMessage initialState "eggs" "n1" "t0" 5 "t1" (.err none) 6 "t2"
        = (createNewSession initialState "n1" "t0", []) :=
  ⟨by decide,
   (sendMessage_boundary_rejects initialState " " "n1" "t0" 5 "t1" (.err none)
      6 "t2").1 (by decide),
   by decide, rfl,
   (sendMessage_boundary_rejects initialState "eggs" "n1" "t0" 5 "t1"
      (.err none) 6 "t2").2 (by decide) rfl⟩

/-- Claim C8: saving a session list into the Local Cache and loading it
back reproduces an equal session list — same ids, names and message
ordering and content, since the lists are equal outright. -/
theorem cache_roundtrip (st : AppState) (ss : List Session) :
    loadCachedSessions (saveSessionsToCache st ss) = some ss := by
  simp [loadCachedSessions, saveSessionsToCache, decodeSessions_encode]

/-- Claim C9: `loadSession` on a session id that is not in the local
session list is a complete no-op — the returned state is the input state
(active id, messages, session list and cache all unchanged) and no request
is issued. -/
theorem loadSession_unknown_id_noop (st : AppState) (sessionId : String)
    (outcome : HistoryOutcome)
    (h : st.sessions.find? (fun s => s.id == sessionId) = none) :
    loadSession st sessionId outcome = (st, []) := by
  unfold loadSession
  exact loadSessionWith_not_found _ _ _ _ h

/-- Witness for claim C9: loading the unknown id `zzz` changes nothing. -/
theorem loadSession_unknown_id_noop_witness :
    witStateC4.sessions.find? (fun s => s.id == "zzz") = none
    ∧ loadSession witStateC4 "zzz" .err = (witStateC4, []) :=
  ⟨rfl, loadSession_unknown_id_noop witStateC4 "zzz" .err rfl⟩

/-- Claim C10: on generation failure the optimistically appended user
message stays in the in-memory sequence while the session list and the
Local Cache blob are left untouched — the cache write happens only on the
success path, so memory and cache diverge by exactly that user message. -/
theorem sendMessage_failure_cache_frame (st : AppState) (ingredients : String)
    (sid newSessionId tsNew : String) (now1 : Nat) (ts1 : String)
    (detail : Option String) (now2 : Nat) (ts2 : String)
    (h1 : jsTrim ingredients ≠ "")
    (h2 : st.currentSessionId = some sid) :
    (sendMessage st ingredients newSessionId tsNew now1 ts1 (.err detail)
        now2 ts2).1.messages
        = st.messages ++ [mkUserMessage ingredients now1 ts1]
    ∧ (sendMessage st ingredients newSessionId tsNew now1 ts1 (.err detail)
        now2 ts2).1.sessions = st.sessions
    ∧ (sendMessage st ingredients newSessionId tsNew now1 ts1 (.err detail)
        now2 ts2).1.cache = st.cache := by
  refine ⟨?_, ?_, ?_⟩ <;> simp [sendMessage, h1, h2, sendMessagePre]

/-- Witness for claim C10 after a failed send on a fresh session: the user
message is in memory, the cached session still has no messages. -/
theorem sendMessage_failure_cache_frame_witness :
    jsTrim "eggs" ≠ ""
    ∧ (createNewSession initialState "s1" "t0").currentSessionId = some "s1"
    ∧ (sendMessage (createNewSession initialState "s1" "t0") "eggs" "x" "tx"
        5 "t1" (.err (some "boom")) 6 "t2").1.messages
        = (createNewSession initialState "s1" "t0").messages
            ++ [mkUserMessage "eggs" 5 "t1"]
    ∧ (sendMessage (createNewSession initialState "s1" "t0") "eggs" "x" "tx"
        5 "t1" (.err (some "boom")) 6 "t2").1.sessions
        = (createNewSession initialState "s1" "t0").sessions
    ∧ (sendMessage (createNewSession initialState "s1" "t0") "eggs" "x" "tx"
        5 "t1" (.err (some "boom")) 6 "t2").1.cache
        = (createNewSession initialState "s1" "t0").cache :=
  ⟨by decide, rfl,
   (sendMessage_failure_cache_frame (createNewSession initialState "s1" "t0")
      "eggs" "s1" "x" "tx" 5 "t1" (some "boom") 6 "t2" (by decide) rfl).1,
   (sendMessage_failure_cache_frame (createNewSession initialState "s1" "t0")
      "eggs" "s1" "x" "tx" 5 "t1" (some "boom") 6 "t2" (by decide) rfl).2.1,
   (sendMessage_failure_cache_frame (createNewSession initialState "s1" "t0")
      "eggs" "s1" "x" "tx" 5 "t1" (some "boom") 6 "t2" (by decide) rfl).2.2⟩

end EasyRecipe
